import Mathlib

/-!
# Tender Scoring & Routing Pipeline — shallow embedding

This file embeds the core decision logic of the `ml_bid_predictor` crate:

* `features.rs` — `FeatureExtractor::extract_features`,
  `calculate_exclusion_score`, `calculate_tfidf_features`,
  `encode_contracting_authority`;
* `ml_predictor.rs` — `OptimizedBidPredictor::predict`,
  `calculate_prediction_score`, `normalize_features`;
* `queue_handler.rs` — `QueueHandler::send_to_ai_summary_queue` (message
  construction);
* `main.rs` — `process_tender_record` (routing).

Modelling conventions:

* Rust `f64` arithmetic on features is modelled with `ℚ` (all the feature
  computations are exact rational arithmetic on small values); the sigmoid in
  `calculate_prediction_score` uses `Real.exp`, so confidences live in `ℝ`.
* Regex matching `(?i)\bterm\b` over the lowercased text is modelled at the
  word level: the text is lowercased character-wise and split on whitespace,
  and a term (a list of words) matches at a position when it equals the
  consecutive words there.  Compound phrases (matched by the code without
  word anchors) are modelled the same way; no phrase in the source lists can
  overlap itself, so positional counting agrees with the regex engine's
  non-overlapping scan.
* Rust's `DefaultHasher` (used only as a fallback encoding for unknown
  contracting authorities) is kept abstract as a parameter
  `hash : String → Nat`; every theorem holds for an arbitrary hash function,
  hence for the real one.
* `reasoning` strings and the `FeatureScores` breakdown are explanatory
  output not referenced by any verified property and are not modelled.
-/

set_option maxRecDepth 1000000

namespace TenderPipeline

/-- Model of `types.rs::TenderRecord` restricted to the fields read by the
feature extractor, predictor and router (`resource_id`, `title`,
`contracting_authority`, `pdf_content`, `codes_count`). `codes_count` is
`Option Int`, mirroring the Rust `Option<i32>`. -/
structure TenderRecord where
  resource_id : Int
  title : String
  contracting_authority : String
  pdf_content : Option String
  codes_count : Option Int
  deriving Repr, DecidableEq

/-- Model of `types.rs::FeatureVector`: the 15 features, as exact rationals. -/
structure FeatureVector where
  codes_count : ℚ
  has_codes : ℚ
  title_length : ℚ
  ca_encoded : ℚ
  exclusion_score : ℚ
  tfidf_software : ℚ
  tfidf_support : ℚ
  tfidf_provision : ℚ
  tfidf_computer : ℚ
  tfidf_services : ℚ
  tfidf_systems : ℚ
  tfidf_management : ℚ
  tfidf_works : ℚ
  tfidf_package : ℚ
  tfidf_technical : ℚ
  deriving Repr, DecidableEq

/-- Does the pattern match the front of the list?  Word-level model of a
regex match anchored at a given position. -/
def matchesAt {α : Type} [BEq α] : List α → List α → Bool
  | [], _ => true
  | _ :: _, [] => false
  | p :: ps, w :: ws => p == w && matchesAt ps ws

/-- Number of positions of `l` at which `pat` matches; word-level model of
`Regex::find_iter(..).count()` for the patterns used by the extractor (none
of which can overlap themselves). -/
def countOcc {α : Type} [BEq α] (pat : List α) : List α → Nat
  | [] => 0
  | w :: ws => (if matchesAt pat (w :: ws) then 1 else 0) + countOcc pat ws

/-- Substring test, modelling Rust `str::contains`. -/
def strContains (hay needle : String) : Bool :=
  0 < countOcc needle.data hay.data

/-- Character-wise lowercasing, modelling `str::to_lowercase` (the term
tables are ASCII, where the two agree). -/
def lowerString (s : String) : String :=
  ⟨s.data.map Char.toLower⟩

/-- Whitespace splitting, modelling `str::split_whitespace`: maximal runs of
non-whitespace characters, in order. -/
def wordsOfAux : List Char → List Char → List String
  | [], cur => if cur.isEmpty then [] else [⟨cur.reverse⟩]
  | c :: cs, cur =>
    if c.isWhitespace then
      if cur.isEmpty then wordsOfAux cs []
      else (⟨cur.reverse⟩ : String) :: wordsOfAux cs []
    else wordsOfAux cs (c :: cur)

/-- The whitespace-separated words of a string. -/
def wordsOf (s : String) : List String := wordsOfAux s.data []

/-- `features.rs::KEY_TERMS` — the ten TF-IDF key terms, in source order. -/
def keyTerms : List String :=
  ["software", "support", "provision", "computer", "services",
   "systems", "management", "works", "package", "technical"]

/-- The regex pattern string built for a term in `FeatureExtractor::new`:
`(?i)\b{term}\b`. -/
def termPattern (t : String) : String := "(?i)\\b" ++ t ++ "\\b"

/-- `features.rs::get_term_idf_weight`, which tests the pattern string for
each keyword in source order. -/
def getTermIdfWeight (pat : String) : ℚ :=
  if strContains pat "software" then 2.5
  else if strContains pat "support" then 2.0
  else if strContains pat "computer" then 1.8
  else if strContains pat "technical" then 1.5
  else if strContains pat "services" then 1.3
  else if strContains pat "systems" then 1.2
  else 1.0

/-- High-weight exclusion indicators of
`features.rs::calculate_exclusion_score` (weight ×2), each as its word
list, in source order. -/
def highWeightTerms : List (List String) :=
  [["construction"], ["building"], ["road"], ["bridge"], ["civil", "engineering"],
   ["mechanical"], ["electrical"], ["plumbing"], ["hvac"], ["infrastructure"],
   ["excavation"], ["concrete"], ["steel"], ["demolition"], ["refurbishment"]]

/-- `features.rs::EXCLUSION_TERMS` — the baseline exclusion terms
(weight ×1), each as its word list, in source order. -/
def exclusionTerms : List (List String) :=
  [["ground"], ["investigation"], ["construction"], ["building"], ["road"], ["bridge"],
   ["excavation"], ["concrete"], ["steel"], ["infrastructure"], ["landscaping"],
   ["drainage"], ["utilities"], ["geotechnical"], ["earthworks"], ["paving"],
   ["demolition"], ["refurbishment"], ["renovation"], ["roofing"], ["flooring"],
   ["mechanical"], ["electrical"], ["plumbing"], ["hvac"], ["heating"], ["ventilation"],
   ["air", "conditioning"], ["boiler"], ["pump"], ["pipe"], ["wiring"], ["circuit"],
   ["site"], ["contractor"], ["materials"], ["equipment"], ["machinery"],
   ["civil"], ["structural"], ["architectural"], ["survey"], ["planning"],
   ["medical"], ["healthcare"], ["nursing"], ["clinical"], ["pharmaceutical"],
   ["therapy"], ["treatment"], ["patient"], ["hospital"], ["clinic"],
   ["catering"], ["food"], ["kitchen"], ["dining"], ["restaurant"], ["meal"],
   ["cooking"], ["chef"], ["menu"], ["nutrition"],
   ["cleaning"], ["maintenance"], ["janitorial"], ["waste"], ["refuse"],
   ["hygiene"], ["sanitization"], ["pest", "control"],
   ["transport"], ["logistics"], ["delivery"], ["freight"], ["shipping"],
   ["warehouse"], ["storage"], ["fleet"], ["vehicle"], ["truck"],
   ["legal"], ["solicitor"], ["barrister"], ["audit"], ["accounting"],
   ["insurance"], ["pension"], ["investment"], ["banking"],
   ["security"], ["guard"], ["surveillance"], ["alarm"], ["cctv"], ["monitoring"],
   ["energy"], ["renewable"], ["solar"], ["wind"], ["environmental"],
   ["waste", "management"], ["recycling"], ["sustainability"]]

/-- The compound exclusion phrases of
`features.rs::calculate_exclusion_score` (weight ×1.5), in source order. -/
def exclusionPhrases : List (List String) :=
  [["ground", "investigation"], ["site", "investigation"], ["civil", "works"],
   ["building", "works"], ["construction", "works"], ["mechanical", "works"],
   ["electrical", "works"], ["infrastructure", "works"], ["road", "works"],
   ["maintenance", "works"], ["repair", "works"], ["cleaning", "services"],
   ["security", "services"], ["catering", "services"], ["transport", "services"]]

/-- `features.rs::calculate_exclusion_score` on the word list of the
(lowercased) text: a weighted match count — ×2 for high-weight terms, ×1 for
baseline terms, ×1.5 for compound phrases — turned into a density per 50
words and capped at 15.0; zero words short-circuits to 0 before any
division. -/
def calculateExclusionScore (ws : List String) : ℚ :=
  if ws.length = 0 then 0
  else
    let score : ℚ :=
      (highWeightTerms.map (fun t => (countOcc t ws : ℚ) * 2)).sum
      + (exclusionTerms.map (fun t => (countOcc t ws : ℚ))).sum
      + (exclusionPhrases.map (fun p => (countOcc p ws : ℚ) * 1.5)).sum
    min ((score / (ws.length : ℚ)) * 50) 15

/-- One entry of `features.rs::calculate_tfidf_features`: term frequency
times the term's IDF weight, capped at 1.0; zero words yields 0 (the code
returns the all-zero vector before dividing). -/
def tfidfFeature (ws : List String) (term : String) : ℚ :=
  if ws.length = 0 then 0
  else min (((countOcc [term] ws : ℚ) / (ws.length : ℚ)) * getTermIdfWeight (termPattern term)) 1

/-- `features.rs::calculate_tfidf_features`: the ten TF-IDF entries in
`KEY_TERMS` order. -/
def calculateTfidfFeatures (ws : List String) : List ℚ :=
  keyTerms.map (tfidfFeature ws)

/-- `features.rs::CA_MAPPING` — curated contracting-authority codes. -/
def caMapping : List (String × Nat) :=
  [("Health Service Executive", 1), ("Dublin City Council", 2),
   ("Cork City Council", 3), ("Galway City Council", 4),
   ("Department of Education", 5), ("Department of Health", 6),
   ("Office of Public Works", 7), ("Transport Infrastructure Ireland", 8),
   ("Irish Water", 9), ("Revenue Commissioners", 10)]

/-- `features.rs::encode_contracting_authority`: exact lookup, then partial
containment match, then hash-based fallback folded into `11..=100`.  The
Rust partial-match loop iterates a `HashMap` in unspecified order; the model
fixes the source declaration order (no verified property depends on which
partial match wins).  `hash` abstracts `DefaultHasher`. -/
def encodeContractingAuthority (hash : String → Nat) (ca : String) : Nat :=
  match caMapping.find? (fun p => p.1 == ca) with
  | some p => p.2
  | none =>
    match caMapping.find? (fun p => strContains ca p.1 || strContains p.1 ca) with
    | some p => p.2
    | none => hash ca % 90 + 11

/-- The lowercased `title ++ " " ++ pdf_content` text built in
`extract_features`, as its whitespace-separated word list. -/
def combinedWords (t : TenderRecord) : List String :=
  wordsOf (lowerString (t.title ++ " " ++ t.pdf_content.getD ""))

/-- `features.rs::extract_features`.  `title_length` is the Rust byte
length `title.len()`.  The ten TF-IDF fields are the entries of
`calculate_tfidf_features` in order. -/
def extractFeatures (hash : String → Nat) (t : TenderRecord) : FeatureVector :=
  let codes_count : ℚ := ((t.codes_count.getD 0 : Int) : ℚ)
  let ws := combinedWords t
  { codes_count := codes_count
    has_codes := if 0 < codes_count then 1 else 0
    title_length := (t.title.utf8ByteSize : ℚ)
    ca_encoded := (encodeContractingAuthority hash t.contracting_authority : ℚ)
    exclusion_score := calculateExclusionScore ws
    tfidf_software := tfidfFeature ws "software"
    tfidf_support := tfidfFeature ws "support"
    tfidf_provision := tfidfFeature ws "provision"
    tfidf_computer := tfidfFeature ws "computer"
    tfidf_services := tfidfFeature ws "services"
    tfidf_systems := tfidfFeature ws "systems"
    tfidf_management := tfidfFeature ws "management"
    tfidf_works := tfidfFeature ws "works"
    tfidf_package := tfidfFeature ws "package"
    tfidf_technical := tfidfFeature ws "technical" }

/-- Model of `types.rs::MLPredictionResult` restricted to the decision
fields (`reasoning` and `feature_scores` are explanatory output not
referenced by any verified property). -/
structure MLPredictionResult where
  should_bid : Bool
  confidence : ℝ

/-- The predictor's base threshold, `OptimizedBidPredictor::new`'s
`threshold: 0.054`. -/
def threshold : ℚ := 0.054

/-- `ml_predictor.rs` `feature_weights`, in `new()` order. -/
def featureWeights : List ℚ :=
  [0.25, 0.10, 0.02, 0.03, -0.80, 0.08, 0.05, 0.03, 0.02, 0.02,
   0.01, 0.01, 0.005, 0.003, 0.003]

/-- `FeatureVector::to_array` composed with
`OptimizedBidPredictor::normalize_features`: each dimension is divided by
its expected maximum and capped at 1 (dimensions already in `[0,1]` pass
through unchanged). -/
def normalizeFeatures (f : FeatureVector) : List ℚ :=
  [min (f.codes_count / 20) 1,
   f.has_codes,
   min (f.title_length / 200) 1,
   min (f.ca_encoded / 100) 1,
   min (f.exclusion_score / 10) 1,
   f.tfidf_software,
   f.tfidf_support,
   f.tfidf_provision,
   f.tfidf_computer,
   f.tfidf_services,
   f.tfidf_systems,
   f.tfidf_management,
   f.tfidf_works,
   f.tfidf_package,
   f.tfidf_technical]

/-- The raw weighted sum of `calculate_prediction_score` (the `score`
accumulation loop). -/
def linearScore (f : FeatureVector) : ℚ :=
  ((normalizeFeatures f).zipWith (· * ·) featureWeights).sum

/-- `OptimizedBidPredictor::calculate_prediction_score`: the sigmoid
`1 / (1 + exp(-score * 6))` of the weighted sum. -/
noncomputable def calculatePredictionScore (f : FeatureVector) : ℝ :=
  1 / (1 + Real.exp (-(linearScore f : ℝ) * 6))

/-- The `adjusted_threshold` binding of `ml_predictor.rs::predict`
(lines 115–119): the threshold is scaled by `1 + exclusion_score * 0.5`
when the exclusion score exceeds 1.0. -/
def adjustedThreshold (f : FeatureVector) : ℚ :=
  if 1 < f.exclusion_score then threshold * (1 + f.exclusion_score * 0.5)
  else threshold

/-- Lines 79–135 of `ml_predictor.rs::predict` — the decision logic on an
extracted feature vector: hard exclusion (score > 4.0 → confidence 0.0,
no weighted model), soft exclusion (score > 2.0 and no codes →
confidence 0.01, no weighted model), else the weighted model compared
against the exclusion-adjusted threshold. -/
noncomputable def predictFromFeatures (f : FeatureVector) : MLPredictionResult :=
  if 4 < f.exclusion_score then
    { should_bid := false, confidence := 0 }
  else if 2 < f.exclusion_score ∧ f.codes_count = 0 then
    { should_bid := false, confidence := 0.01 }
  else
    let prediction_score := calculatePredictionScore f
    { should_bid := if (adjustedThreshold f : ℝ) ≤ prediction_score then true else false
      confidence := prediction_score }

/-- Is the string whitespace-only?  Models `s.trim().is_empty()`. -/
def isBlank (s : String) : Bool := s.data.all Char.isWhitespace

/-- The error message of `predict`'s PDF-content guard. -/
def noPdfContentMsg (t : TenderRecord) : String :=
  "ML predictor requires PDF content. Tender " ++ toString t.resource_id ++
  " has no PDF content - route to ai_summary instead."

/-- `OptimizedBidPredictor::predict`: errors when `pdf_content` is absent or
whitespace-only, otherwise extracts features and applies the decision logic.
The remaining Rust fallibility (`Regex::new` inside the extractor) can only
fail on an invalid pattern, and every pattern is built by `regex::escape`
from a fixed table, so extraction is total here. -/
noncomputable def predict (hash : String → Nat) (t : TenderRecord) :
    Except String MLPredictionResult :=
  match t.pdf_content with
  | none => .error (noPdfContentMsg t)
  | some s =>
    if isBlank s then .error (noPdfContentMsg t)
    else .ok (predictFromFeatures (extractFeatures hash t))

/-- Model of `types.rs::AISummaryMessage` (the timestamp, wall-clock data,
is omitted). -/
structure AISummaryMessage where
  resource_id : String
  tender_title : String
  ml_prediction : MLPredictionResult
  pdf_content : String
  priority : String

/-- `queue_handler.rs::send_to_ai_summary_queue` as the message it
constructs and sends: priority `"URGENT"` when `should_bid`, else
`"NORMAL"`. -/
noncomputable def sendToAiSummaryQueue (t : TenderRecord)
    (prediction : MLPredictionResult) : AISummaryMessage :=
  { resource_id := toString t.resource_id
    tender_title := t.title
    ml_prediction := prediction
    pdf_content := t.pdf_content.getD ""
    priority := if prediction.should_bid then "URGENT" else "NORMAL" }

/-- The durable write of `main.rs::process_tender_record`
(`database.update_ml_prediction_results`). -/
structure DbUpdate where
  resource_id : Int
  ml_bid : Bool
  ml_confidence : ℝ
  stage : String

/-- `main.rs::process_tender_record` (after SQS body parsing, which is the
message-fabric boundary): validate content, predict, and — unconditionally
on the success path — write the prediction and forward the tender to the AI
summary queue.  The output is the pair of side effects (database update,
outbound queue message). -/
noncomputable def processTenderRecord (hash : String → Nat) (t : TenderRecord) :
    Except String (DbUpdate × AISummaryMessage) :=
  if t.pdf_content.isNone ∨ isBlank (t.pdf_content.getD "") then
    .error ("ML predictor received tender " ++ toString t.resource_id ++
      " without PDF content - this indicates a routing issue. Tenders without PDF should go directly to AI Summary.")
  else
    match predict hash t with
    | .error e => .error e
    | .ok prediction =>
      .ok ({ resource_id := t.resource_id
             ml_bid := prediction.should_bid
             ml_confidence := prediction.confidence
             stage := if prediction.should_bid then "bid" else "no-bid" },
           sendToAiSummaryQueue t prediction)

/-! ## Helper definitions and lemmas -/

/-- Total number of high-weight term matches (the counts summed by the
first loop of `calculate_exclusion_score`). -/
def highWeightMatchSum (ws : List String) : Nat :=
  (highWeightTerms.map (fun t => countOcc t ws)).sum

/-- Total number of baseline exclusion-term matches (second loop). -/
def baselineMatchSum (ws : List String) : Nat :=
  (exclusionTerms.map (fun t => countOcc t ws)).sum

/-- Total number of compound-phrase matches (third loop). -/
def phraseMatchSum (ws : List String) : Nat :=
  (exclusionPhrases.map (fun p => countOcc p ws)).sum

/-- Non-negativity of every feature dimension except the relevance-code
count (which the scoring-engine claims quantify separately). -/
def FeatureVector.Nonneg (f : FeatureVector) : Prop :=
  0 ≤ f.has_codes ∧ 0 ≤ f.title_length ∧ 0 ≤ f.ca_encoded ∧ 0 ≤ f.exclusion_score
  ∧ 0 ≤ f.tfidf_software ∧ 0 ≤ f.tfidf_support ∧ 0 ≤ f.tfidf_provision
  ∧ 0 ≤ f.tfidf_computer ∧ 0 ≤ f.tfidf_services ∧ 0 ≤ f.tfidf_systems
  ∧ 0 ≤ f.tfidf_management ∧ 0 ≤ f.tfidf_works ∧ 0 ≤ f.tfidf_package
  ∧ 0 ≤ f.tfidf_technical

instance (f : FeatureVector) : Decidable f.Nonneg := by
  unfold FeatureVector.Nonneg
  infer_instance

/-- The ten term-frequency dimensions capped at 1.0. -/
def FeatureVector.TfCapped (f : FeatureVector) : Prop :=
  f.tfidf_software ≤ 1 ∧ f.tfidf_support ≤ 1 ∧ f.tfidf_provision ≤ 1
  ∧ f.tfidf_computer ≤ 1 ∧ f.tfidf_services ≤ 1 ∧ f.tfidf_systems ≤ 1
  ∧ f.tfidf_management ≤ 1 ∧ f.tfidf_works ≤ 1 ∧ f.tfidf_package ≤ 1
  ∧ f.tfidf_technical ≤ 1

instance (f : FeatureVector) : Decidable f.TfCapped := by
  unfold FeatureVector.TfCapped
  infer_instance

/-- Modelled from the spec: the weighted match count `W` of the
exclusion-score formula — each occurrence of a high-weight term contributes
weight 2, each occurrence of a baseline exclusion term weight 1, and each
occurrence of a compound phrase weight 1.5. -/
def specWeightedMatchSum (ws : List String) : ℚ :=
  2 * (highWeightMatchSum ws : ℚ) + (baselineMatchSum ws : ℚ)
  + 1.5 * (phraseMatchSum ws : ℚ)

/-- Modelled from the spec: `effective_threshold = base_threshold ×
(1 + exclusion_score × adjustment_factor)` when the exclusion score exceeds
the minor floor 1.0, else the base threshold 0.054 unchanged (adjustment
factor 0.5). -/
def effectiveThreshold (e : ℚ) : ℚ :=
  if 1 < e then 0.054 * (1 + e * 0.5) else 0.054

/-! ### Concrete inputs used by the witnesses -/

/-- A stand-in for the abstract authority hash in concrete computations. -/
def hash0 : String → Nat := fun _ => 0

/-- An in-domain IT tender: no exclusion terms, three relevance codes. -/
def tIT : TenderRecord :=
  { resource_id := 101, title := "software", contracting_authority := "X",
    pdf_content := some "software", codes_count := some 3 }

/-- A tender whose single content word is a high-weight exclusion term, so
the exclusion density saturates the 15.0 cap. -/
def tHard : TenderRecord :=
  { resource_id := 102, title := "", contracting_authority := "X",
    pdf_content := some "construction", codes_count := none }

/-- A 20-word tender with one baseline exclusion term and no codes:
exclusion score `(1/20)·50 = 2.5`, in the soft-exclusion band. -/
def tSoft : TenderRecord :=
  { resource_id := 103, title := "catering", contracting_authority := "X",
    pdf_content := some "z z z z z z z z z z z z z z z z z z z",
    codes_count := none }

/-- A tender with no title and no content at all. -/
def tEmpty : TenderRecord :=
  { resource_id := 104, title := "", contracting_authority := "X",
    pdf_content := none, codes_count := none }

/-- A tender carrying a negative `codes_count`, representable in the Rust
`Option<i32>` field. -/
def tNegCodes : TenderRecord :=
  { resource_id := 105, title := "a", contracting_authority := "X",
    pdf_content := some "b", codes_count := some (-1) }

/-- An all-zero feature vector. -/
def fZero : FeatureVector :=
  { codes_count := 0, has_codes := 0, title_length := 0, ca_encoded := 0,
    exclusion_score := 0, tfidf_software := 0, tfidf_support := 0,
    tfidf_provision := 0, tfidf_computer := 0, tfidf_services := 0,
    tfidf_systems := 0, tfidf_management := 0, tfidf_works := 0,
    tfidf_package := 0, tfidf_technical := 0 }

/-- A feature vector in the soft-exclusion band (exclusion score 3), used to
exercise the cross-path case of the codes-count monotonicity claim. -/
def fSoftBand : FeatureVector :=
  { fZero with exclusion_score := 3 }

/-! ## Lemmas -/

theorem sum_map_cast_mul (l : List (List String)) (ws : List String) (c : ℚ) :
    (l.map (fun t => (countOcc t ws : ℚ) * c)).sum
      = ((l.map (fun t => countOcc t ws)).sum : ℚ) * c := by
  induction l with
  | nil => simp
  | cons x xs ih => simp [ih, add_mul]

theorem sum_map_cast (l : List (List String)) (ws : List String) :
    (l.map (fun t => (countOcc t ws : ℚ))).sum
      = ((l.map (fun t => countOcc t ws)).sum : ℚ) := by
  induction l with
  | nil => simp
  | cons x xs ih => simp [ih]

/-- The per-term accumulation loops of `calculate_exclusion_score` compute
the weighted total `2·high + 1·baseline + 1.5·phrases`. -/
theorem calculateExclusionScore_eq (ws : List String) :
    calculateExclusionScore ws =
      if ws.length = 0 then 0
      else min (((2 * (highWeightMatchSum ws : ℚ) + (baselineMatchSum ws : ℚ)
          + 1.5 * (phraseMatchSum ws : ℚ)) / (ws.length : ℚ)) * 50) 15 := by
  unfold calculateExclusionScore highWeightMatchSum baselineMatchSum phraseMatchSum
  rcases Nat.eq_zero_or_pos ws.length with h | h
  · simp [h]
  · rw [if_neg (by omega), if_neg (by omega)]
    rw [sum_map_cast_mul, sum_map_cast_mul, sum_map_cast]
    ring_nf

theorem calculateExclusionScore_nonneg (ws : List String) :
    0 ≤ calculateExclusionScore ws := by
  rw [calculateExclusionScore_eq]
  split
  · exact le_refl 0
  · have h1 : (0:ℚ) ≤ (highWeightMatchSum ws : ℚ) := Nat.cast_nonneg _
    have h2 : (0:ℚ) ≤ (baselineMatchSum ws : ℚ) := Nat.cast_nonneg _
    have h3 : (0:ℚ) ≤ (phraseMatchSum ws : ℚ) := Nat.cast_nonneg _
    have h4 : (0:ℚ) ≤ (ws.length : ℚ) := Nat.cast_nonneg _
    refine le_min (mul_nonneg (div_nonneg (by linarith) h4) (by norm_num)) (by norm_num)

theorem calculateExclusionScore_le_15 (ws : List String) :
    calculateExclusionScore ws ≤ 15 := by
  rw [calculateExclusionScore_eq]
  split
  · norm_num
  · exact min_le_right _ _

theorem getTermIdfWeight_nonneg (p : String) : 0 ≤ getTermIdfWeight p := by
  unfold getTermIdfWeight
  split_ifs <;> norm_num

theorem tfidfFeature_nonneg (ws : List String) (t : String) :
    0 ≤ tfidfFeature ws t := by
  unfold tfidfFeature
  split
  · exact le_refl 0
  · exact le_min (mul_nonneg (by positivity) (getTermIdfWeight_nonneg _)) (by norm_num)

theorem tfidfFeature_le_one (ws : List String) (t : String) :
    tfidfFeature ws t ≤ 1 := by
  unfold tfidfFeature
  split
  · norm_num
  · exact min_le_right _ _

theorem calculatePredictionScore_pos (f : FeatureVector) :
    0 < calculatePredictionScore f := by
  unfold calculatePredictionScore
  positivity

theorem calculatePredictionScore_lt_one (f : FeatureVector) :
    calculatePredictionScore f < 1 := by
  unfold calculatePredictionScore
  have h : (0:ℝ) < Real.exp (-((linearScore f : ℚ) : ℝ) * 6) := Real.exp_pos _
  rw [div_lt_one (by linarith)]
  linarith

/-- The sigmoid of `calculate_prediction_score` is monotone in the raw
weighted sum. -/
theorem calculatePredictionScore_mono (f g : FeatureVector)
    (h : linearScore f ≤ linearScore g) :
    calculatePredictionScore f ≤ calculatePredictionScore g := by
  unfold calculatePredictionScore
  have hc : ((linearScore f : ℚ) : ℝ) ≤ ((linearScore g : ℚ) : ℝ) := by exact_mod_cast h
  have hexp : Real.exp (-((linearScore g : ℚ) : ℝ) * 6)
      ≤ Real.exp (-((linearScore f : ℚ) : ℝ) * 6) :=
    Real.exp_le_exp.mpr (by linarith)
  have hpos : (0:ℝ) < 1 + Real.exp (-((linearScore g : ℚ) : ℝ) * 6) := by
    have := Real.exp_pos (-((linearScore g : ℚ) : ℝ) * 6)
    linarith
  exact one_div_le_one_div_of_le hpos (by linarith)

/-- When the raw weighted sum is at least `-8/25` (the worst case on the
non-hard-excluded path with non-negative features), the sigmoid stays at or
above the soft-exclusion confidence `0.01`. -/
theorem calculatePredictionScore_ge_soft (f : FeatureVector)
    (h : -(8/25) ≤ linearScore f) :
    (0.01 : ℝ) ≤ calculatePredictionScore f := by
  unfold calculatePredictionScore
  have hc : (-(8/25) : ℝ) ≤ ((linearScore f : ℚ) : ℝ) := by
    have := Rat.cast_le (K := ℝ).mpr h
    push_cast at this
    linarith
  have hexp1 : Real.exp (-((linearScore f : ℚ) : ℝ) * 6) ≤ Real.exp 2 :=
    Real.exp_le_exp.mpr (by linarith)
  have hexp2 : Real.exp 2 ≤ 99 := by
    have he : Real.exp 1 < 2.7182818286 := Real.exp_one_lt_d9
    have hp : (0:ℝ) < Real.exp 1 := Real.exp_pos 1
    have h2 : Real.exp 2 = Real.exp 1 * Real.exp 1 := by
      rw [← Real.exp_add]; norm_num
    nlinarith
  have hpos : (0:ℝ) < 1 + Real.exp (-((linearScore f : ℚ) : ℝ) * 6) := by
    have := Real.exp_pos (-((linearScore f : ℚ) : ℝ) * 6)
    linarith
  have h100 : (1:ℝ) + Real.exp (-((linearScore f : ℚ) : ℝ) * 6) ≤ 100 := by linarith
  calc (0.01 : ℝ) = 1 / 100 := by norm_num
    _ ≤ 1 / (1 + Real.exp (-((linearScore f : ℚ) : ℝ) * 6)) :=
        one_div_le_one_div_of_le hpos h100

/-- The raw weighted sum written out: `normalize_features` dotted with
`feature_weights`. -/
theorem linearScore_eq (f : FeatureVector) :
    linearScore f =
      min (f.codes_count / 20) 1 * 0.25 + f.has_codes * 0.10
      + min (f.title_length / 200) 1 * 0.02 + min (f.ca_encoded / 100) 1 * 0.03
      + min (f.exclusion_score / 10) 1 * (-0.80)
      + f.tfidf_software * 0.08 + f.tfidf_support * 0.05
      + f.tfidf_provision * 0.03 + f.tfidf_computer * 0.02
      + f.tfidf_services * 0.02 + f.tfidf_systems * 0.01
      + f.tfidf_management * 0.01 + f.tfidf_works * 0.005
      + f.tfidf_package * 0.003 + f.tfidf_technical * 0.003 := by
  simp only [linearScore, normalizeFeatures, featureWeights, List.zipWith, List.sum_cons,
    List.sum_nil]
  ring

/-- Lower bound on the raw weighted sum: with non-negative features and an
exclusion score at most 4, only the exclusion dimension contributes
negatively, and its contribution is at least `-0.8 · 0.4 = -8/25`. -/
theorem linearScore_ge (f : FeatureVector) (hnn : f.Nonneg)
    (hc : 0 ≤ f.codes_count) (hE : f.exclusion_score ≤ 4) :
    -(8/25) ≤ linearScore f := by
  obtain ⟨h1, h2, h3, h4, h5, h6, h7, h8, h9, h10, h11, h12, h13, h14⟩ := hnn
  rw [linearScore_eq]
  have m0 : 0 ≤ min (f.codes_count / 20) 1 := le_min (by positivity) (by norm_num)
  have m2 : 0 ≤ min (f.title_length / 200) 1 := le_min (by positivity) (by norm_num)
  have m3 : 0 ≤ min (f.ca_encoded / 100) 1 := le_min (by positivity) (by norm_num)
  have m4 : min (f.exclusion_score / 10) 1 ≤ 2/5 :=
    min_le_of_left_le (by linarith)
  have p0 : 0 ≤ min (f.codes_count / 20) 1 * 0.25 := mul_nonneg m0 (by norm_num)
  have p2 : 0 ≤ min (f.title_length / 200) 1 * 0.02 := mul_nonneg m2 (by norm_num)
  have p3 : 0 ≤ min (f.ca_encoded / 100) 1 * 0.03 := mul_nonneg m3 (by norm_num)
  have p4 : (2/5 : ℚ) * (-0.80) ≤ min (f.exclusion_score / 10) 1 * (-0.80) :=
    mul_le_mul_of_nonpos_right m4 (by norm_num)
  nlinarith

/-- Monotonicity of the raw weighted sum in the codes-count dimension. -/
theorem linearScore_mono_codes (f : FeatureVector) (c₁ c₂ : ℚ) (h : c₁ ≤ c₂) :
    linearScore { f with codes_count := c₁ } ≤ linearScore { f with codes_count := c₂ } := by
  rw [linearScore_eq, linearScore_eq]
  simp only
  have hm : min (c₁ / 20) 1 ≤ min (c₂ / 20) 1 :=
    min_le_min (by linarith) le_rfl
  have := mul_le_mul_of_nonneg_right hm (show (0:ℚ) ≤ 0.25 by norm_num)
  linarith

theorem predictFromFeatures_hard (f : FeatureVector) (h : 4 < f.exclusion_score) :
    predictFromFeatures f = { should_bid := false, confidence := 0 } := by
  unfold predictFromFeatures
  rw [if_pos h]

theorem predictFromFeatures_soft (f : FeatureVector) (h1 : ¬ 4 < f.exclusion_score)
    (h2 : 2 < f.exclusion_score ∧ f.codes_count = 0) :
    predictFromFeatures f = { should_bid := false, confidence := 0.01 } := by
  unfold predictFromFeatures
  rw [if_neg h1, if_pos h2]

theorem predictFromFeatures_weighted (f : FeatureVector) (h1 : ¬ 4 < f.exclusion_score)
    (h2 : ¬ (2 < f.exclusion_score ∧ f.codes_count = 0)) :
    predictFromFeatures f =
      { should_bid := if (adjustedThreshold f : ℝ) ≤ calculatePredictionScore f
          then true else false
        confidence := calculatePredictionScore f } := by
  unfold predictFromFeatures
  rw [if_neg h1, if_neg h2]

theorem predict_ok_eq (hash : String → Nat) (t : TenderRecord) (r : MLPredictionResult)
    (h : predict hash t = .ok r) :
    r = predictFromFeatures (extractFeatures hash t) := by
  unfold predict at h
  split at h
  · cases h
  · split at h
    · cases h
    · cases h; rfl

theorem predict_ok_of_content (hash : String → Nat) (t : TenderRecord) (s : String)
    (hs : t.pdf_content = some s) (hb : isBlank s = false) :
    predict hash t = .ok (predictFromFeatures (extractFeatures hash t)) := by
  unfold predict
  rw [hs]
  simp [hb]

theorem predict_some_content (hash : String → Nat) (t : TenderRecord) (r : MLPredictionResult)
    (h : predict hash t = .ok r) :
    t.pdf_content.isNone = false ∧ isBlank (t.pdf_content.getD "") = false := by
  unfold predict at h
  split at h
  · cases h
  · next s hpdf =>
    split at h
    · cases h
    · next hb => exact ⟨by rw [hpdf]; simp, by rw [hpdf]; simpa using hb⟩

/-- The spec-modelled effective threshold coincides with the code's
`adjusted_threshold`. -/
theorem effectiveThreshold_eq_adjusted (f : FeatureVector) :
    effectiveThreshold f.exclusion_score = adjustedThreshold f := rfl

/-! ### Concrete evaluations shared by the witnesses -/

theorem exclusion_tIT : (extractFeatures hash0 tIT).exclusion_score = 0 := by
  show calculateExclusionScore (combinedWords tIT) = 0
  rw [calculateExclusionScore_eq]
  have h1 : highWeightMatchSum (combinedWords tIT) = 0 := by decide
  have h2 : baselineMatchSum (combinedWords tIT) = 0 := by decide
  have h3 : phraseMatchSum (combinedWords tIT) = 0 := by decide
  have h4 : (combinedWords tIT).length = 2 := by decide
  rw [h1, h2, h3, h4]
  norm_num [min_def]

theorem exclusion_tHard : (extractFeatures hash0 tHard).exclusion_score = 15 := by
  show calculateExclusionScore (combinedWords tHard) = 15
  rw [calculateExclusionScore_eq]
  have h1 : highWeightMatchSum (combinedWords tHard) = 1 := by decide
  have h2 : baselineMatchSum (combinedWords tHard) = 1 := by decide
  have h3 : phraseMatchSum (combinedWords tHard) = 0 := by decide
  have h4 : (combinedWords tHard).length = 1 := by decide
  rw [h1, h2, h3, h4]
  norm_num [min_def]

theorem exclusion_tSoft : (extractFeatures hash0 tSoft).exclusion_score = 5/2 := by
  show calculateExclusionScore (combinedWords tSoft) = 5/2
  rw [calculateExclusionScore_eq]
  have h1 : highWeightMatchSum (combinedWords tSoft) = 0 := by decide
  have h2 : baselineMatchSum (combinedWords tSoft) = 1 := by decide
  have h3 : phraseMatchSum (combinedWords tSoft) = 0 := by decide
  have h4 : (combinedWords tSoft).length = 20 := by decide
  rw [h1, h2, h3, h4]
  norm_num [min_def]

theorem codes_tSoft : (extractFeatures hash0 tSoft).codes_count = 0 := by
  show (((0 : ℤ)) : ℚ) = 0
  norm_num

/-! ## Claims -/

/-- C1: For every tender with non-empty PDF content that reaches the
weighted-model path (exclusion score not above the hard ceiling 4.0 and not
soft-excluded), the decision threshold is
`effective_threshold = 0.054 × (1 + exclusion_score × 0.5)` when the
exclusion score exceeds the minor floor 1.0 and exactly the base threshold
0.054 otherwise, and the returned `should_bid` equals
`confidence ≥ effective_threshold`; consequently an input whose exclusion
score is above the floor requires a strictly higher confidence to reach
`should_bid = true` than one below it. -/
theorem weighted_path_effective_threshold (hash : String → Nat) (t : TenderRecord)
    (r : MLPredictionResult) (ea eb : ℚ)
    (hok : predict hash t = .ok r)
    (hhard : ¬ 4 < (extractFeatures hash t).exclusion_score)
    (hsoft : ¬ (2 < (extractFeatures hash t).exclusion_score
      ∧ (extractFeatures hash t).codes_count = 0))
    (hea : 1 < ea) (heb : eb ≤ 1) :
    (r.should_bid = true ↔
      ((effectiveThreshold (extractFeatures hash t).exclusion_score : ℚ) : ℝ) ≤ r.confidence)
    ∧ effectiveThreshold (extractFeatures hash t).exclusion_score
        = adjustedThreshold (extractFeatures hash t)
    ∧ effectiveThreshold eb < effectiveThreshold ea := by
  obtain rfl := predict_ok_eq hash t r hok
  refine ⟨?_, effectiveThreshold_eq_adjusted _, ?_⟩
  · rw [predictFromFeatures_weighted _ hhard hsoft,
      effectiveThreshold_eq_adjusted]
    by_cases hc : (adjustedThreshold (extractFeatures hash t) : ℝ)
        ≤ calculatePredictionScore (extractFeatures hash t)
    · simp [hc]
    · simp [hc]
  · unfold effectiveThreshold
    rw [if_pos hea, if_neg (not_lt.mpr heb)]
    nlinarith

/-- Witness for C1 at the concrete IT tender (exclusion score 0) and the
threshold pair (2, 0). -/
theorem weighted_path_effective_threshold_witness :
    ((predictFromFeatures (extractFeatures hash0 tIT)).should_bid = true ↔
      ((effectiveThreshold (extractFeatures hash0 tIT).exclusion_score : ℚ) : ℝ)
        ≤ (predictFromFeatures (extractFeatures hash0 tIT)).confidence)
    ∧ effectiveThreshold (extractFeatures hash0 tIT).exclusion_score
        = adjustedThreshold (extractFeatures hash0 tIT)
    ∧ effectiveThreshold 0 < effectiveThreshold 2 :=
  weighted_path_effective_threshold hash0 tIT _ 2 0
    (predict_ok_of_content hash0 tIT "software" rfl (by decide))
    (by rw [exclusion_tIT]; norm_num)
    (by rw [exclusion_tIT]; intro h; exact absurd h.1 (by norm_num))
    (by norm_num) (by norm_num)

/-- C2: Every tender with non-empty PDF content whose extracted exclusion
score is greater than 4.0 yields `should_bid = false` and
`confidence = 0.0`, regardless of every other feature, without evaluating the
weighted model. -/
theorem hard_exclusion_short_circuit (hash : String → Nat) (t : TenderRecord)
    (r : MLPredictionResult) (hok : predict hash t = .ok r)
    (h4 : 4 < (extractFeatures hash t).exclusion_score) :
    r.should_bid = false ∧ r.confidence = 0 := by
  obtain rfl := predict_ok_eq hash t r hok
  rw [predictFromFeatures_hard _ h4]
  exact ⟨rfl, rfl⟩

/-- Witness for C2 at the construction tender (exclusion score 15). -/
theorem hard_exclusion_short_circuit_witness :
    (predictFromFeatures (extractFeatures hash0 tHard)).should_bid = false
    ∧ (predictFromFeatures (extractFeatures hash0 tHard)).confidence = 0 :=
  hard_exclusion_short_circuit hash0 tHard _
    (predict_ok_of_content hash0 tHard "construction" rfl (by decide))
    (by rw [exclusion_tHard]; norm_num)

/-- C3: Every tender with non-empty PDF content whose extracted exclusion
score is greater than 2.0 but not above the hard ceiling 4.0 and whose
relevance-code count is zero short-circuits to confidence 0.01 (near zero,
not absolute zero) with `should_bid = false`, without evaluating the
weighted model. -/
theorem soft_exclusion_short_circuit (hash : String → Nat) (t : TenderRecord)
    (r : MLPredictionResult) (hok : predict hash t = .ok r)
    (h2 : 2 < (extractFeatures hash t).exclusion_score)
    (h4 : ¬ 4 < (extractFeatures hash t).exclusion_score)
    (hc : (extractFeatures hash t).codes_count = 0) :
    r.confidence = 0.01 ∧ r.should_bid = false := by
  obtain rfl := predict_ok_eq hash t r hok
  rw [predictFromFeatures_soft _ h4 ⟨h2, hc⟩]
  exact ⟨rfl, rfl⟩

/-- Witness for C3 at the catering tender (exclusion score 2.5, no codes). -/
theorem soft_exclusion_short_circuit_witness :
    (predictFromFeatures (extractFeatures hash0 tSoft)).confidence = 0.01
    ∧ (predictFromFeatures (extractFeatures hash0 tSoft)).should_bid = false :=
  soft_exclusion_short_circuit hash0 tSoft _
    (predict_ok_of_content hash0 tSoft "z z z z z z z z z z z z z z z z z z z" rfl (by decide))
    (by rw [exclusion_tSoft]; norm_num)
    (by rw [exclusion_tSoft]; norm_num)
    codes_tSoft

/-- C5: For every tender on which `predict` succeeds, the returned
confidence lies in `[0, 1]` (hard exclusion yields 0.0, soft exclusion
0.01, and the sigmoid lies strictly between 0 and 1), and the computed
exclusion score lies in `[0, 15]`. -/
theorem confidence_and_exclusion_bounds (hash : String → Nat) (t : TenderRecord)
    (r : MLPredictionResult) (hok : predict hash t = .ok r) :
    (0 ≤ r.confidence ∧ r.confidence ≤ 1)
    ∧ (0 ≤ (extractFeatures hash t).exclusion_score
        ∧ (extractFeatures hash t).exclusion_score ≤ 15) := by
  obtain rfl := predict_ok_eq hash t r hok
  refine ⟨?_, calculateExclusionScore_nonneg _, calculateExclusionScore_le_15 _⟩
  set f := extractFeatures hash t with hf
  by_cases h4 : 4 < f.exclusion_score
  · rw [predictFromFeatures_hard f h4]
    norm_num
  · by_cases hs : 2 < f.exclusion_score ∧ f.codes_count = 0
    · rw [predictFromFeatures_soft f h4 hs]
      norm_num
    · rw [predictFromFeatures_weighted f h4 hs]
      exact ⟨(calculatePredictionScore_pos f).le, (calculatePredictionScore_lt_one f).le⟩

/-- Witness for C5 at the construction tender. -/
theorem confidence_and_exclusion_bounds_witness :
    (0 ≤ (predictFromFeatures (extractFeatures hash0 tHard)).confidence
      ∧ (predictFromFeatures (extractFeatures hash0 tHard)).confidence ≤ 1)
    ∧ (0 ≤ (extractFeatures hash0 tHard).exclusion_score
        ∧ (extractFeatures hash0 tHard).exclusion_score ≤ 15) :=
  confidence_and_exclusion_bounds hash0 tHard _
    (predict_ok_of_content hash0 tHard "construction" rfl (by decide))

/-- C4: For every text with at least one word, the exclusion score equals
`min(15, (W / word_count) × 50)` where `word_count` is the number of
whitespace-separated words and `W` is the weighted match count — weight 2
per high-weight-term occurrence, weight 1 per baseline-term occurrence,
weight 1.5 per compound-phrase occurrence.  (Fourteen of the fifteen
high-weight terms also appear in the baseline list, so one occurrence of
such a term contributes to both group counts, as in the source loops.) -/
theorem exclusion_score_formula (ws : List String) (h : 0 < ws.length) :
    calculateExclusionScore ws
      = min 15 ((specWeightedMatchSum ws / (ws.length : ℚ)) * 50) := by
  rw [calculateExclusionScore_eq, if_neg (by omega), min_comm]
  rfl

/-- Witness for C4 on the one-word text `construction`. -/
theorem exclusion_score_formula_witness :
    calculateExclusionScore ["construction"]
      = min 15 ((specWeightedMatchSum ["construction"]
          / ((["construction"] : List String).length : ℚ)) * 50) :=
  exclusion_score_formula ["construction"] (by decide)

/-- C6: For every pair of scoring-engine inputs agreeing on every feature
(including `has_codes` and the exclusion score) except the relevance-code
count, with `0 ≤ c₁ ≤ c₂`, the confidence for count `c₂` is at least the
confidence for count `c₁` — across all prediction paths: hard exclusion
(both 0), soft exclusion versus weighted model (0.01 versus a sigmoid that
stays at or above 0.01 when the exclusion score is at most 4), and within
the weighted model via the positive codes weight, capped normalization and
the monotone sigmoid. -/
theorem confidence_mono_in_codes_count (f : FeatureVector) (c₁ c₂ : ℚ)
    (hnn : f.Nonneg) (h0 : 0 ≤ c₁) (h12 : c₁ ≤ c₂) :
    (predictFromFeatures { f with codes_count := c₁ }).confidence
      ≤ (predictFromFeatures { f with codes_count := c₂ }).confidence := by
  by_cases h4 : 4 < f.exclusion_score
  · rw [predictFromFeatures_hard { f with codes_count := c₁ } h4,
      predictFromFeatures_hard { f with codes_count := c₂ } h4]
  · by_cases hs1 : 2 < f.exclusion_score ∧ c₁ = 0
    · rw [predictFromFeatures_soft { f with codes_count := c₁ } h4 ⟨hs1.1, hs1.2⟩]
      by_cases hc2 : c₂ = 0
      · rw [predictFromFeatures_soft { f with codes_count := c₂ } h4 ⟨hs1.1, hc2⟩]
      · rw [predictFromFeatures_weighted { f with codes_count := c₂ } h4
          (fun hcon => hc2 hcon.2)]
        show (0.01 : ℝ) ≤ calculatePredictionScore _
        refine calculatePredictionScore_ge_soft _ (linearScore_ge _ hnn ?_ ?_)
        · exact le_trans h0 h12
        · exact le_of_not_lt h4
    · have hs2 : ¬ (2 < f.exclusion_score ∧ c₂ = 0) := by
        intro hcon
        refine hs1 ⟨hcon.1, ?_⟩
        have := hcon.2
        linarith
      rw [predictFromFeatures_weighted { f with codes_count := c₁ } h4 hs1,
        predictFromFeatures_weighted { f with codes_count := c₂ } h4 hs2]
      show calculatePredictionScore _ ≤ calculatePredictionScore _
      exact calculatePredictionScore_mono _ _ (linearScore_mono_codes f c₁ c₂ h12)

/-- Witness for C6 at a soft-band feature vector (exclusion score 3) and
counts 0 and 1, which exercises the cross-path case. -/
theorem confidence_mono_in_codes_count_witness :
    (predictFromFeatures { fSoftBand with codes_count := 0 }).confidence
      ≤ (predictFromFeatures { fSoftBand with codes_count := 1 }).confidence :=
  confidence_mono_in_codes_count fSoftBand 0 1 (by decide) (by decide) (by decide)

/-- C7: For every tender whose combined title-plus-content text has zero
whitespace-separated words, all ten term-frequency features and the
exclusion score are 0, and feature extraction completes — the zero-word
case returns before either division (the `word_count == 0` guards of
`calculate_tfidf_features` and `calculate_exclusion_score`). -/
theorem zero_words_zero_features (hash : String → Nat) (t : TenderRecord)
    (h : combinedWords t = []) :
    (extractFeatures hash t).tfidf_software = 0
    ∧ (extractFeatures hash t).tfidf_support = 0
    ∧ (extractFeatures hash t).tfidf_provision = 0
    ∧ (extractFeatures hash t).tfidf_computer = 0
    ∧ (extractFeatures hash t).tfidf_services = 0
    ∧ (extractFeatures hash t).tfidf_systems = 0
    ∧ (extractFeatures hash t).tfidf_management = 0
    ∧ (extractFeatures hash t).tfidf_works = 0
    ∧ (extractFeatures hash t).tfidf_package = 0
    ∧ (extractFeatures hash t).tfidf_technical = 0
    ∧ (extractFeatures hash t).exclusion_score = 0 := by
  have htf : ∀ term, tfidfFeature (combinedWords t) term = 0 := by
    intro term
    rw [h]
    rfl
  refine ⟨htf _, htf _, htf _, htf _, htf _, htf _, htf _, htf _, htf _, htf _, ?_⟩
  show calculateExclusionScore (combinedWords t) = 0
  rw [h]
  rfl

/-- Witness for C7 at the tender with empty title and missing content. -/
theorem zero_words_zero_features_witness :
    (extractFeatures hash0 tEmpty).tfidf_software = 0
    ∧ (extractFeatures hash0 tEmpty).tfidf_support = 0
    ∧ (extractFeatures hash0 tEmpty).tfidf_provision = 0
    ∧ (extractFeatures hash0 tEmpty).tfidf_computer = 0
    ∧ (extractFeatures hash0 tEmpty).tfidf_services = 0
    ∧ (extractFeatures hash0 tEmpty).tfidf_systems = 0
    ∧ (extractFeatures hash0 tEmpty).tfidf_management = 0
    ∧ (extractFeatures hash0 tEmpty).tfidf_works = 0
    ∧ (extractFeatures hash0 tEmpty).tfidf_package = 0
    ∧ (extractFeatures hash0 tEmpty).tfidf_technical = 0
    ∧ (extractFeatures hash0 tEmpty).exclusion_score = 0 :=
  zero_words_zero_features hash0 tEmpty (by decide)

/-- C8-counterexample: the Rust `codes_count: Option<i32>` field can carry
`-1`, and `extract_features` then returns a feature vector whose
`codes_count` feature is negative, refuting non-negativity over every input
tender record. -/
theorem feature_nonneg_cex : (extractFeatures hash0 tNegCodes).codes_count < 0 := by
  show ((-1 : ℤ) : ℚ) < 0
  norm_num

/-- C8 (amended): for every tender whose `codes_count`, when present, is
non-negative, every field of the extracted feature vector is a non-negative
rational and each of the ten term-frequency fields is at most 1.  (The
amendment adds the codes-count proviso forced by the counterexample; all
other fields are non-negative unconditionally, and in this exact-arithmetic
model every field is finite by construction.) -/
theorem feature_vector_invariants (hash : String → Nat) (t : TenderRecord)
    (hc : 0 ≤ t.codes_count.getD 0) :
    0 ≤ (extractFeatures hash t).codes_count
    ∧ (extractFeatures hash t).Nonneg
    ∧ (extractFeatures hash t).TfCapped := by
  refine ⟨?_, ⟨?_, ?_, ?_, ?_, ?_, ?_, ?_, ?_, ?_, ?_, ?_, ?_, ?_, ?_⟩,
    ⟨?_, ?_, ?_, ?_, ?_, ?_, ?_, ?_, ?_, ?_⟩⟩
  · show (0:ℚ) ≤ ((t.codes_count.getD 0 : ℤ) : ℚ)
    exact_mod_cast hc
  · show (0:ℚ) ≤ if 0 < ((t.codes_count.getD 0 : ℤ) : ℚ) then 1 else 0
    split_ifs <;> norm_num
  · exact Nat.cast_nonneg _
  · exact Nat.cast_nonneg _
  · exact calculateExclusionScore_nonneg (combinedWords t)
  · exact tfidfFeature_nonneg (combinedWords t) "software"
  · exact tfidfFeature_nonneg (combinedWords t) "support"
  · exact tfidfFeature_nonneg (combinedWords t) "provision"
  · exact tfidfFeature_nonneg (combinedWords t) "computer"
  · exact tfidfFeature_nonneg (combinedWords t) "services"
  · exact tfidfFeature_nonneg (combinedWords t) "systems"
  · exact tfidfFeature_nonneg (combinedWords t) "management"
  · exact tfidfFeature_nonneg (combinedWords t) "works"
  · exact tfidfFeature_nonneg (combinedWords t) "package"
  · exact tfidfFeature_nonneg (combinedWords t) "technical"
  · exact tfidfFeature_le_one (combinedWords t) "software"
  · exact tfidfFeature_le_one (combinedWords t) "support"
  · exact tfidfFeature_le_one (combinedWords t) "provision"
  · exact tfidfFeature_le_one (combinedWords t) "computer"
  · exact tfidfFeature_le_one (combinedWords t) "services"
  · exact tfidfFeature_le_one (combinedWords t) "systems"
  · exact tfidfFeature_le_one (combinedWords t) "management"
  · exact tfidfFeature_le_one (combinedWords t) "works"
  · exact tfidfFeature_le_one (combinedWords t) "package"
  · exact tfidfFeature_le_one (combinedWords t) "technical"

/-- Witness for the amended C8 at the IT tender (three codes). -/
theorem feature_vector_invariants_witness :
    0 ≤ (extractFeatures hash0 tIT).codes_count
    ∧ (extractFeatures hash0 tIT).Nonneg
    ∧ (extractFeatures hash0 tIT).TfCapped :=
  feature_vector_invariants hash0 tIT (by decide)

/-- C9: Every scored tender is forwarded to the deep-review (AI summary)
queue regardless of the `should_bid` outcome — the success path of
`process_tender_record` unconditionally performs the database write and the
queue send — and the outbound message's priority is exactly `"URGENT"` when
`should_bid` is true and `"NORMAL"` otherwise. -/
theorem scored_tender_always_forwarded (hash : String → Nat) (t : TenderRecord)
    (p : MLPredictionResult) (hok : predict hash t = .ok p) :
    processTenderRecord hash t =
      .ok ({ resource_id := t.resource_id, ml_bid := p.should_bid,
             ml_confidence := p.confidence,
             stage := if p.should_bid then "bid" else "no-bid" },
           sendToAiSummaryQueue t p)
    ∧ (sendToAiSummaryQueue t p).priority
        = (if p.should_bid then "URGENT" else "NORMAL") := by
  obtain ⟨h1, h2⟩ := predict_some_content hash t p hok
  refine ⟨?_, rfl⟩
  unfold processTenderRecord
  rw [if_neg (by simp [h1, h2]), hok]

/-- Witness for C9 at the construction tender (a no-bid prediction that is
still forwarded). -/
theorem scored_tender_always_forwarded_witness :
    processTenderRecord hash0 tHard =
      .ok ({ resource_id := tHard.resource_id,
             ml_bid := (predictFromFeatures (extractFeatures hash0 tHard)).should_bid,
             ml_confidence := (predictFromFeatures (extractFeatures hash0 tHard)).confidence,
             stage := if (predictFromFeatures (extractFeatures hash0 tHard)).should_bid
               then "bid" else "no-bid" },
           sendToAiSummaryQueue tHard (predictFromFeatures (extractFeatures hash0 tHard)))
    ∧ (sendToAiSummaryQueue tHard (predictFromFeatures (extractFeatures hash0 tHard))).priority
        = (if (predictFromFeatures (extractFeatures hash0 tHard)).should_bid
            then "URGENT" else "NORMAL") :=
  scored_tender_always_forwarded hash0 tHard _
    (predict_ok_of_content hash0 tHard "construction" rfl (by decide))

/-- C10: `predict` returns an error exactly when the tender's `pdf_content`
is absent or consists only of whitespace; with at least one non-whitespace
character it returns `Ok` with the prediction computed from the extracted
features (extraction and scoring are total). -/
theorem predict_error_iff_no_content (hash : String → Nat) (t : TenderRecord) :
    (predict hash t = .error (noPdfContentMsg t)
      ↔ (t.pdf_content = none ∨ isBlank (t.pdf_content.getD "") = true))
    ∧ (∀ s, t.pdf_content = some s → isBlank s = false →
        predict hash t = .ok (predictFromFeatures (extractFeatures hash t))) := by
  refine ⟨⟨?_, ?_⟩, fun s hs hb => predict_ok_of_content hash t s hs hb⟩
  · intro h
    unfold predict at h
    split at h
    · next hpdf => exact Or.inl hpdf
    · next s hpdf =>
      split at h
      · next hb => exact Or.inr (by rw [hpdf]; simpa using hb)
      · cases h
  · intro h
    rcases h with hnone | hblank
    · unfold predict
      rw [hnone]
    · unfold predict
      cases hpdf : t.pdf_content with
      | none => rfl
      | some s =>
        rw [hpdf] at hblank
        simp only [Option.getD] at hblank
        simp [hblank]

/-- Witness for C10: the empty tender errors, the IT tender succeeds. -/
theorem predict_error_iff_no_content_witness :
    predict hash0 tEmpty = .error (noPdfContentMsg tEmpty)
    ∧ predict hash0 tIT = .ok (predictFromFeatures (extractFeatures hash0 tIT)) :=
  ⟨(predict_error_iff_no_content hash0 tEmpty).1.mpr (Or.inl rfl),
   (predict_error_iff_no_content hash0 tIT).2 "software" rfl (by decide)⟩

end TenderPipeline
